import Mathlib

/-!
# Headline-Harvester: shallow embedding and verification

Shallow embedding of the two source files of the repository,
`src/scrape_headlines.py` (class `NewsScraper`) and `src/scraper.py`
(class `NewsHeadlineScraper`), together with theorems settling the
specification claims about them.

Modelling conventions:
* The HTTP layer (`requests.Session.get` together with
  `Response.raise_for_status`) is modelled by an oracle
  `responses : Nat → NetResult` giving, for each attempt index, either a
  response with a status code and a body, or a connection error / timeout
  (both are caught by the same `except requests.exceptions.RequestException`
  branch in the code, so they need not be distinguished).
* `BeautifulSoup` parsing is modelled by an oracle producing an
  `Option Doc` (resp. `Option RssDoc`): `none` models the parser raising,
  which the code catches locally.
* A parsed document is a `Doc`: its `<title>` text and a `select` function
  giving, for each CSS selector string, the matched elements in document
  order (the contract of `soup.select`).
* Python dictionaries with differing key sets (`parse_rss_feed` records vs
  `parse_html_content` records) are modelled by one `Record` structure with
  `Option`-valued fields for the keys only one of the two paths sets.
* `time.sleep(delay)` is modelled by recording `delay` in a list of delays.
-/

/-- Outcome of one `self.session.get(...)` call: either a response carrying
an HTTP status code and a body text, or a connection error / timeout
(raised `RequestException` before a response exists). -/
inductive NetResult where
  | resp (status : Nat) (body : String)
  | netErr
deriving DecidableEq, Repr

/-- The configuration keys of `NewsScraper.load_config` that
`fetch_content` reads: `max_retries` and `retry_delay`. -/
structure Config where
  max_retries : Nat
  retry_delay : Nat
deriving DecidableEq, Repr

/-- Embeds `Response.raise_for_status`: it raises `HTTPError` exactly for status codes
in `[400, 600)`. -/
def isHttpError (status : Nat) : Bool :=
  decide (400 ≤ status ∧ status < 600)

/-- The body of the loop `for attempt in range(max_retries):` in
`NewsScraper.fetch_content` (src/scrape_headlines.py lines 98-116),
recursing on the number of remaining loop iterations.  Returns the fetched
body (`none` when the loop runs out), the number of GET attempts made, and
the list of sleep delays performed.  The code sleeps only when
`attempt < max_retries - 1`, i.e. when at least one iteration remains. -/
def fetchGo (retry_delay : Nat) (responses : Nat → NetResult) :
    Nat → Nat → Option String × Nat × List Nat
  | _, 0 => (none, 0, [])
  | attempt, remaining + 1 =>
    match responses attempt with
    | NetResult.resp status body =>
      if isHttpError status then
        let rest := fetchGo retry_delay responses (attempt + 1) remaining
        (rest.1, rest.2.1 + 1,
          (if 0 < remaining then [retry_delay] else []) ++ rest.2.2)
      else
        (some body, 1, [])
    | NetResult.netErr =>
      let rest := fetchGo retry_delay responses (attempt + 1) remaining
      (rest.1, rest.2.1 + 1,
        (if 0 < remaining then [retry_delay] else []) ++ rest.2.2)

/-- The parsed form of a URL, as produced by `urllib.parse.urlparse`:
the components `NewsScraper.is_valid_url` inspects. -/
structure URLParts where
  scheme : String
  netloc : String
deriving DecidableEq, Repr

/-- Embeds `NewsScraper.is_valid_url` (src/scrape_headlines.py lines 78-84):
`all([result.scheme, result.netloc])` on the parsed URL — both the scheme
and the netloc (host) component must be non-empty strings. -/
def is_valid_url (u : URLParts) : Bool :=
  u.scheme ≠ "" && u.netloc ≠ ""

/-- Embeds `NewsScraper.fetch_content` (src/scrape_headlines.py lines 92-116):
validate the URL first (invalid → `None`, no attempt, no sleep), then run
the retry loop for `max_retries` iterations.  Returns the body (or `none`),
the number of GET attempts made, and the sleep delays performed. -/
def fetch_content (cfg : Config) (u : URLParts) (responses : Nat → NetResult) :
    Option String × Nat × List Nat :=
  if is_valid_url u then
    fetchGo cfg.retry_delay responses 0 cfg.max_retries
  else
    (none, 0, [])

/-- Models Python `str.strip()`: remove leading and trailing whitespace
(by extension also the whitespace stripping `get_text(strip=True)`
performs on the extracted text). -/
def pyStrip (s : String) : String :=
  String.mk
    (((s.toList.dropWhile Char.isWhitespace).reverse.dropWhile
      Char.isWhitespace).reverse)

/-- Models Python `str.lower()` on the ASCII range. -/
def pyLower (s : String) : String :=
  String.mk (s.toList.map Char.toLower)

/-- Boolean test that `pre` is a prefix of `s` (Python `str.startswith`). -/
def strStarts (s pre : String) : Bool :=
  pre.toList.isPrefixOf s.toList

/-- An anchor (`<a>`) element as seen by the link search in
`parse_html_content`: only its `href` attribute matters (`get('href')`
yields `None` when the attribute is absent). -/
structure AnchorInfo where
  href : Option String
deriving DecidableEq, Repr

/-- A document element as matched by a CSS selector.  `text` is the raw
visible text `element.get_text()` would return; `href` is the element's own
`href` attribute; `parentAnchor` is the nearest ancestor anchor
(`element.find_parent('a')`), `childAnchor` the first descendant anchor
(`element.find('a')`), each `none` when no such anchor exists. -/
structure Element where
  name : String
  text : String
  href : Option String
  parentAnchor : Option AnchorInfo
  childAnchor : Option AnchorInfo
deriving DecidableEq, Repr

/-- A parsed HTML document: the `<title>` text, when present, and the
`soup.select` matching function, returning for each selector string the
matched elements in document order. -/
structure Doc where
  title : Option String
  select : String → List Element

/-- Splits a character list at the first occurrence of `"://"`, returning
the parts before and after it. -/
def splitSchemeRest : List Char → Option (List Char × List Char)
  | [] => none
  | c :: rest =>
    if (c :: rest).take 3 = [':', '/', '/'] then some ([], rest.drop 2)
    else
      match splitSchemeRest rest with
      | some (pre, post) => some (c :: pre, post)
      | none => none

/-- The scheme-and-authority part of an absolute http(s) URL, e.g.
`"https://x.test"` from `"https://x.test/news"`. -/
def schemeHost (base : String) : String :=
  match splitSchemeRest base.toList with
  | some (sch, rest) =>
    String.mk (sch ++ [':', '/', '/'] ++ rest.takeWhile (fun c => c ≠ '/'))
  | none => base

/-- The part of an absolute URL up to and including the final `/` of its
path, used as the base directory for joining a relative reference. -/
def baseDir (base : String) : String :=
  match splitSchemeRest base.toList with
  | some (sch, rest) =>
    let host := rest.takeWhile (fun c => c ≠ '/')
    let path := rest.dropWhile (fun c => c ≠ '/')
    if path.contains '/' then
      String.mk (sch ++ [':', '/', '/'] ++ host ++
        (path.reverse.dropWhile (fun c => c ≠ '/')).reverse)
    else
      String.mk (sch ++ [':', '/', '/'] ++ host ++ ['/'])
  | none => base ++ "/"

/-- Models `urllib.parse.urljoin` for the reference forms this program
exercises: an absolute http(s) reference replaces the base, a
root-relative reference (`/a/b`) is joined to the base's scheme and host,
any other non-empty reference is joined to the base's directory, and an
empty reference yields the base. -/
def urljoin (base rel : String) : String :=
  if rel = "" then base
  else if strStarts rel "http://" || strStarts rel "https://" then rel
  else if strStarts rel "/" then schemeHost base ++ rel
  else baseDir base ++ rel

/-- A headline record.  Python builds plain dictionaries whose key sets
differ between the RSS path (`title`, `description`, `link`, `pubDate`,
`source`) and the HTML path (`title`, `link`, `source`, `type`,
`selector`); keys set by only one path are `Option`-valued here (the field
`type` is named `rtype`). -/
structure Record where
  title : String
  description : Option String
  link : String
  pubDate : Option String
  source : String
  rtype : Option String
  selector : Option String
deriving DecidableEq, Repr

/-- The record dictionary `parse_html_content` appends (lines 184-190). -/
def mkHtmlRecord (title link source selector : String) : Record :=
  { title := title, description := none, link := link, pubDate := none,
    source := source, rtype := some "html", selector := some selector }

/-- The `link_raw` computation of `parse_html_content` (lines 166-178):
the element's own `href` when it is an anchor; otherwise the ancestor
anchor's `href` when an ancestor anchor exists (even if that anchor has no
`href`), else the descendant anchor's `href` when one exists, else none. -/
def linkRawOf (e : Element) : Option String :=
  if e.name = "a" then e.href
  else
    match e.parentAnchor with
    | some a => a.href
    | none =>
      match e.childAnchor with
      | some a => a.href
      | none => none

/-- The `link` value stored in a record (lines 165-182): `link` starts as
`''` and is replaced by `urljoin(source, link_raw)` only when `link_raw` is
truthy (neither `None` nor the empty string). -/
def linkOf (source : String) (e : Element) : String :=
  match linkRawOf e with
  | some h => if h = "" then "" else urljoin source h
  | none => ""

/-- Processing of one matched element in `parse_html_content`
(lines 161-190): take `element.get_text().strip()`, keep the element only
when that text is non-empty and longer than 10 characters, and build its
record with the resolved link. -/
def recordOf (source selector : String) (e : Element) : Option Record :=
  let text := pyStrip e.text
  if text ≠ "" ∧ 10 < text.length then
    some (mkHtmlRecord text (linkOf source e) source selector)
  else
    none

/-- Embeds `NewsScraper.parse_html_content` (src/scrape_headlines.py lines
151-197).  The parse oracle result is `none` when `BeautifulSoup` raises,
in which case the `except` branch returns the (still empty) list.
Otherwise the two nested `for` loops append, for each selector in list
order and each matched element in document order, the element's record
when it passes the text validation. -/
def parse_html_content (selectors : List String) (parsed : Option Doc)
    (source : String) : List Record :=
  match parsed with
  | none => []
  | some doc =>
    selectors.flatMap (fun selector =>
      (doc.select selector).filterMap (recordOf source selector))

/-- An `<item>` of an RSS document: the text content of its `title`,
`description`, `link` and `pubDate` children, each `none` when `find`
returns no such child. -/
structure RssItem where
  title : Option String
  description : Option String
  link : Option String
  pubDate : Option String
deriving DecidableEq, Repr

/-- A parsed RSS document: the list of its `<item>` elements, in document
order (`soup.find_all('item')`). -/
structure RssDoc where
  items : List RssItem
deriving DecidableEq, Repr

/-- Embeds `NewsScraper._safe_get_text` (lines 86-90): the element's stripped
text when the element exists, `""` otherwise. -/
def safe_get_text (o : Option String) : String :=
  match o with
  | some t => pyStrip t
  | none => ""

/-- The record dictionary `parse_rss_feed` appends (lines 134-140). -/
def mkRssRecord (title description link pubDate source : String) : Record :=
  { title := title, description := some description, link := link,
    pubDate := some pubDate, source := source, rtype := none,
    selector := none }

/-- Embeds `NewsScraper.parse_rss_feed` (src/scrape_headlines.py lines 118-149):
`none` (the XML parser raised) yields the empty list; otherwise each item
produces a record, kept only when its title text is non-empty. -/
def parse_rss_feed (parsed : Option RssDoc) (source : String) : List Record :=
  match parsed with
  | none => []
  | some doc =>
    doc.items.filterMap (fun item =>
      let t := safe_get_text item.title
      if t ≠ "" then
        some (mkRssRecord t (safe_get_text item.description)
          (safe_get_text item.link) (safe_get_text item.pubDate) source)
      else
        none)

/-- The routing test of `NewsScraper.scrape_url` (line 206):
`'rss' in url.lower() or 'xml' in url.lower()`. -/
def isFeedUrl (url : String) : Bool :=
  decide (List.IsInfix "rss".toList (pyLower url).toList)
    || decide (List.IsInfix "xml".toList (pyLower url).toList)

/-- Embeds `NewsScraper.scrape_url` (src/scrape_headlines.py lines 199-209):
fetch the URL (its parsed form `up` is passed alongside the string), return
`[]` when the content is falsy (`None` or `""`), and otherwise dispatch on
the URL string alone: feed parsing when the lowercased URL contains `rss`
or `xml`, HTML parsing otherwise.  `parseXml` and `parseHtml` are the
`BeautifulSoup` oracles applied to the fetched content. -/
def scrape_url (cfg : Config) (url : String) (up : URLParts)
    (responses : Nat → NetResult) (selectors : List String)
    (parseXml : String → Option RssDoc) (parseHtml : String → Option Doc) :
    List Record :=
  match (fetch_content cfg up responses).1 with
  | none => []
  | some content =>
    if content = "" then []
    else if isFeedUrl url then parse_rss_feed (parseXml content) url
    else parse_html_content selectors (parseHtml content) url

/-- Processing of one matched element in
`NewsHeadlineScraper.extract_headlines` (src/scraper.py lines 93-106):
take `elem.get_text(strip=True)` and `elem.get('href')`, skip the element
when the text is falsy, the text has at most 5 characters, or the `href`
is falsy; otherwise resolve the `href` against the target URL and keep the
`(text, absolute_url)` pair only when the absolute URL starts with
`"http"`. -/
def pairOf (target_url : String) (e : Element) : Option (String × String) :=
  let text := pyStrip e.text
  match e.href with
  | none => none
  | some u =>
    if text = "" ∨ text.length ≤ 5 ∨ u = "" then none
    else
      let absolute_url := urljoin target_url u
      if strStarts absolute_url "http" then some (text, absolute_url)
      else none

/-- Adding one element to a Python `set`, modelled as a duplicate-free
list: a pair already present is not added again.  (The iteration order of
a Python `set` is unspecified; this model fixes insertion order, and no
theorem below relies on the order of `extract_headlines` results.) -/
def addPair (acc : List (String × String)) (p : String × String) :
    List (String × String) :=
  if p ∈ acc then acc else acc ++ [p]

/-- Embeds `NewsHeadlineScraper.extract_headlines` (src/scraper.py lines 71-117).
A falsy `html_content` or a parser exception (`parsed = none`) yields `[]`;
otherwise every selector's matches contribute their validated
`(text, absolute_url)` pairs to the `headlines_data` set, returned as a
list of pairs (the final dictionaries `{'text': ..., 'url': ...}` are the
pairs themselves). -/
def extract_headlines (target_url : String) (selectors : List String)
    (parsed : Option Doc) : List (String × String) :=
  match parsed with
  | none => []
  | some doc =>
    (selectors.flatMap (fun selector =>
      (doc.select selector).filterMap (pairOf target_url))).foldl addPair []

/-! ## Concrete fixtures used by the claim theorems -/

/-- A response oracle serving three consecutive HTTP 503 responses and
then a 200 with body `"OK"`. -/
def responses503then200 : Nat → NetResult :=
  fun n =>
    if n < 3 then NetResult.resp 503 "Service Unavailable"
    else NetResult.resp 200 "OK"

/-- A response oracle serving one HTTP 404 response and then a 200 with
body `"OK"`. -/
def responses404then200 : Nat → NetResult :=
  fun n =>
    if n = 0 then NetResult.resp 404 "Not Found"
    else NetResult.resp 200 "OK"

/-- A response oracle always serving a 200 whose body is the text of an
RSS feed (abbreviated here to `"feedbody"`). -/
def responsesFeedBody : Nat → NetResult :=
  fun _ => NetResult.resp 200 "feedbody"

/-- An element with visible text only: not an anchor, no `href`, no
ancestor or descendant anchor. -/
def textElem (name t : String) : Element :=
  { name := name, text := t, href := none, parentAnchor := none,
    childAnchor := none }

/-- An anchor element with visible text `t` and `href` attribute `h`. -/
def anchorElem (t h : String) : Element :=
  { name := "a", text := t, href := some h, parentAnchor := none,
    childAnchor := none }

/-- A document with title `Breaking News` in which no selector matches
any element. -/
def docTitleOnly : Doc :=
  { title := some "Breaking News", select := fun _ => [] }

/-- A document whose only match (for selector `h2`) has the 2-character
text `Hi`. -/
def docHi : Doc :=
  { title := some "Breaking News",
    select := fun sel => if sel = "h2" then [textElem "h2" "Hi"] else [] }

/-- A document whose only match (for selector `h2`) has the 19-character
text `Markets rally today`. -/
def docMarkets : Doc :=
  { title := none,
    select := fun sel =>
      if sel = "h2" then [textElem "h2" "Markets rally today"] else [] }

/-- A document where selector `s1` matches an element with text
`Market Update` and selector `s2` one with text `market update`. -/
def docCase : Doc :=
  { title := none,
    select := fun sel =>
      if sel = "s1" then [textElem "h2" "Market Update"]
      else if sel = "s2" then [textElem "h3" "market update"]
      else [] }

/-- A document where selectors `s1` and `s2` each match an element with
the identical text `Duplicate headline`. -/
def docDupExact : Doc :=
  { title := none,
    select := fun sel =>
      if sel = "s1" then [textElem "h2" "Duplicate headline"]
      else if sel = "s2" then [textElem "h3" "Duplicate headline"]
      else [] }

/-- A document where selector `s1` matches elements A and B and selector
`s2` matches B and C, B having the same text both times. -/
def docOrder : Doc :=
  { title := none,
    select := fun sel =>
      if sel = "s1" then
        [textElem "h2" "Alpha headline news", textElem "h2" "Bravo headline news"]
      else if sel = "s2" then
        [textElem "h3" "Bravo headline news", textElem "h3" "Charlie headline news"]
      else [] }

/-- A document where selectors `s1` and `s2` each match an anchor with
text `Market Update` and `href` `/a` (the same pair twice). -/
def docPairExact : Doc :=
  { title := none,
    select := fun sel =>
      if sel = "s1" then [anchorElem "Market Update" "/a"]
      else if sel = "s2" then [anchorElem "Market Update" "/a"]
      else [] }

/-- A document where selector `s1` matches an anchor with text
`Market Update` and selector `s2` one with text `market update`, both
with `href` `/a`. -/
def docPairCase : Doc :=
  { title := none,
    select := fun sel =>
      if sel = "s1" then [anchorElem "Market Update" "/a"]
      else if sel = "s2" then [anchorElem "market update" "/a"]
      else [] }

/-- An XML-parse oracle under which the fetched `"feedbody"` content is a
feed with a single item titled `Feed Item`. -/
def feedOracleXml : String → Option RssDoc :=
  fun _ => some ⟨[⟨some "Feed Item", none, none, none⟩]⟩

/-- An HTML-parse oracle under which no selector matches anything (an RSS
feed body has none of the usual headline elements). -/
def feedOracleHtml : String → Option Doc :=
  fun _ => some { title := none, select := fun _ => [] }

/-! ## Helper lemmas -/

/-- The retry loop makes at most as many GET attempts as it has loop
iterations left: `fetch_content` never exceeds `max_retries` attempts. -/
theorem fetchGo_attempts_le (d : Nat) (rs : Nat → NetResult) :
    ∀ remaining attempt, (fetchGo d rs attempt remaining).2.1 ≤ remaining := by
  intro remaining
  induction remaining with
  | zero =>
    intro attempt
    simp [fetchGo]
  | succ r ih =>
    intro attempt
    simp only [fetchGo]
    cases rs attempt with
    | resp status body =>
      by_cases h : isHttpError status = true
      · simp only [h, if_true]
        exact Nat.succ_le_succ (ih (attempt + 1))
      · simp only [h, if_false]
        exact Nat.succ_le_succ (Nat.zero_le r)
    | netErr =>
      exact Nat.succ_le_succ (ih (attempt + 1))

/-- When at least one loop iteration remains, at least one GET attempt is
made. -/
theorem fetchGo_attempts_pos (d : Nat) (rs : Nat → NetResult)
    (remaining attempt : Nat) (h : 0 < remaining) :
    1 ≤ (fetchGo d rs attempt remaining).2.1 := by
  cases remaining with
  | zero => exact absurd h (Nat.lt_irrefl 0)
  | succ r =>
    simp only [fetchGo]
    cases rs attempt with
    | resp status body =>
      by_cases hs : isHttpError status = true
      · simp only [hs, if_true]
        exact Nat.succ_le_succ (Nat.zero_le _)
      · simp only [hs, if_false]
        exact Nat.le_refl 1
    | netErr =>
      exact Nat.succ_le_succ (Nat.zero_le _)

/-- Membership in the set-fold: every member of the folded result was in
the accumulator or in the folded list. -/
theorem mem_foldl_addPair :
    ∀ (l acc : List (String × String)) (p : String × String),
      p ∈ l.foldl addPair acc → p ∈ acc ∨ p ∈ l := by
  intro l
  induction l with
  | nil =>
    intro acc p h
    exact Or.inl h
  | cons q t ih =>
    intro acc p h
    simp only [List.foldl_cons] at h
    rcases ih (addPair acc q) p h with h' | h'
    · unfold addPair at h'
      split at h'
      · exact Or.inl h'
      · rcases List.mem_append.mp h' with h2 | h2
        · exact Or.inl h2
        · simp only [List.mem_singleton] at h2
          exact Or.inr (h2 ▸ List.mem_cons_self _ _)
    · exact Or.inr (List.mem_cons_of_mem q h')

/-- The set-fold preserves freedom from duplicates. -/
theorem nodup_foldl_addPair :
    ∀ (l acc : List (String × String)), acc.Nodup →
      (l.foldl addPair acc).Nodup := by
  intro l
  induction l with
  | nil =>
    intro acc h
    exact h
  | cons q t ih =>
    intro acc h
    simp only [List.foldl_cons]
    apply ih
    unfold addPair
    split
    · exact h
    · next hq =>
      rw [← List.concat_eq_append]
      exact List.Nodup.concat hq h

/-- When no selector matches any element, `parse_html_content` returns the
empty list (and nothing else: there is no fallback branch). -/
theorem parse_html_content_eq_nil (selectors : List String) (d : Doc)
    (src : String) (h : ∀ sel ∈ selectors, d.select sel = []) :
    parse_html_content selectors (some d) src = [] := by
  simp only [parse_html_content, List.flatMap_eq_nil_iff]
  intro sel hsel
  rw [h sel hsel]
  rfl

/-- Every record `parse_html_content` emits comes from `recordOf` on a
matched element of one of the selectors. -/
theorem parse_html_content_mem (selectors : List String) (parsed : Option Doc)
    (src : String) (r : Record)
    (h : r ∈ parse_html_content selectors parsed src) :
    ∃ d sel e, parsed = some d ∧ sel ∈ selectors ∧ e ∈ d.select sel ∧
      recordOf src sel e = some r := by
  cases parsed with
  | none => exact absurd h (List.not_mem_nil r)
  | some d =>
    simp only [parse_html_content, List.mem_flatMap, List.mem_filterMap] at h
    rcases h with ⟨sel, hsel, e, he, hrec⟩
    exact ⟨d, sel, e, rfl, hsel, he, hrec⟩

/-- The validation `recordOf` performs: a record is produced only from a
stripped text that is non-empty and longer than 10 characters, and the
record stores that text as its title. -/
theorem recordOf_eq_some (src sel : String) (e : Element) (r : Record)
    (h : recordOf src sel e = some r) :
    r = mkHtmlRecord (pyStrip e.text) (linkOf src e) src sel ∧
      pyStrip e.text ≠ "" ∧ 10 < (pyStrip e.text).length := by
  simp only [recordOf] at h
  split at h
  · next hc =>
    cases h
    exact ⟨rfl, hc.1, hc.2⟩
  · cases h

/-- The validation `pairOf` performs: a pair is produced only when the
element's stripped text is non-empty and longer than 5 characters and its
`href` is present and non-empty, and the pair stores that text. -/
theorem pairOf_eq_some (target_url : String) (e : Element)
    (p : String × String) (h : pairOf target_url e = some p) :
    p.1 = pyStrip e.text ∧ pyStrip e.text ≠ "" ∧
      5 < (pyStrip e.text).length := by
  cases he : e.href with
  | none =>
    simp only [pairOf, he] at h
    cases h
  | some u =>
    simp only [pairOf, he] at h
    split at h
    · cases h
    · next hc =>
      push_neg at hc
      split at h
      · cases h
        exact ⟨rfl, hc.1, hc.2.1⟩
      · cases h

/-- Every pair `extract_headlines` returns comes from `pairOf` on a
matched element of one of the selectors. -/
theorem extract_headlines_mem (target_url : String) (selectors : List String)
    (parsed : Option Doc) (p : String × String)
    (h : p ∈ extract_headlines target_url selectors parsed) :
    ∃ d sel e, parsed = some d ∧ sel ∈ selectors ∧ e ∈ d.select sel ∧
      pairOf target_url e = some p := by
  cases parsed with
  | none => exact absurd h (List.not_mem_nil p)
  | some d =>
    simp only [extract_headlines] at h
    rcases mem_foldl_addPair _ _ _ h with h' | h'
    · exact absurd h' (List.not_mem_nil p)
    · simp only [List.mem_flatMap, List.mem_filterMap] at h'
      rcases h' with ⟨sel, hsel, e, he, hp⟩
      exact ⟨d, sel, e, rfl, hsel, he, hp⟩

/-! ## Claim theorems -/

/-- C1, counterexample: the claim predicts that with `maxRetries = 3`,
three consecutive 503 responses followed by a 200 yield the 200 body after
exactly 3 retry delays (`maxRetries + 1` total attempts).  The loop
`for attempt in range(max_retries)` makes only `max_retries` total
attempts: all three attempts hit the 503s, the 200 is never requested,
`fetch_content` returns `None`, and only 2 sleeps happen. -/
theorem C1_counterexample :
    fetch_content ⟨3, 2⟩ ⟨"https", "x.test"⟩ responses503then200 =
      (none, 3, [2, 2]) ∧
    (fetch_content ⟨3, 2⟩ ⟨"https", "x.test"⟩ responses503then200).1 ≠
      some "OK" :=
  ⟨by decide, by decide⟩

/-- C1, amended: for every fetch target and every configured
`max_retries`, the Fetcher makes at most `max_retries` total HTTP GET
attempts (one initial attempt plus at most `max_retries - 1` retries); in
particular, with `max_retries = 3` and three consecutive HTTP 503
responses followed by a 200, fetch exhausts its 3 attempts on the 503s and
fails with no content after exactly 2 constant retry delays. -/
theorem C1_total_attempts_bound :
    (∀ (cfg : Config) (u : URLParts) (rs : Nat → NetResult),
      (fetch_content cfg u rs).2.1 ≤ cfg.max_retries) ∧
    fetch_content ⟨3, 2⟩ ⟨"https", "x.test"⟩ responses503then200 =
      (none, 3, [2, 2]) := by
  constructor
  · intro cfg u rs
    unfold fetch_content
    split
    · exact fetchGo_attempts_le _ _ _ _
    · exact Nat.zero_le _
  · decide

/-- C5, counterexample: the claim predicts that a 404 (not in the
retryable set) terminates the fetch immediately with no further attempt.
The code's `raise_for_status` + blanket `except RequestException` treats
every 4xx/5xx alike: after a 404 the loop sleeps and retries, and here the
second attempt returns the 200 body. -/
theorem C5_counterexample :
    fetch_content ⟨3, 2⟩ ⟨"https", "x.test"⟩ responses404then200 =
      (some "OK", 2, [2]) ∧
    (fetch_content ⟨3, 2⟩ ⟨"https", "x.test"⟩ responses404then200).2.1 ≠ 1 :=
  ⟨by decide, by decide⟩

/-- C5, amended: every HTTP response status in `[400, 600)` — including
404 — is treated as a transient failure exactly like connection errors and
timeouts: the loop proceeds to the next attempt (with a sleep when an
iteration remains).  A status outside `[400, 600)` returns the body
immediately on that attempt. -/
theorem C5_all_http_errors_retryable :
    (∀ (d : Nat) (rs : Nat → NetResult) (attempt r s : Nat) (body : String),
      rs attempt = NetResult.resp s body → isHttpError s = true →
      fetchGo d rs attempt (r + 2) =
        ((fetchGo d rs (attempt + 1) (r + 1)).1,
         (fetchGo d rs (attempt + 1) (r + 1)).2.1 + 1,
         d :: (fetchGo d rs (attempt + 1) (r + 1)).2.2)) ∧
    (∀ (d : Nat) (rs : Nat → NetResult) (attempt r s : Nat) (body : String),
      rs attempt = NetResult.resp s body → isHttpError s = false →
      fetchGo d rs attempt (r + 1) = (some body, 1, [])) ∧
    isHttpError 404 = true := by
  refine ⟨?_, ?_, by decide⟩
  · intro d rs attempt r s body hr hs
    simp [fetchGo, hr, hs]
  · intro d rs attempt r s body hr hs
    simp [fetchGo, hr, hs]

/-- C5, witness for the amended theorem at the concrete 404 input. -/
theorem C5_all_http_errors_retryable_witness :
    fetchGo 2 responses404then200 0 2 =
      ((fetchGo 2 responses404then200 1 1).1,
       (fetchGo 2 responses404then200 1 1).2.1 + 1,
       2 :: (fetchGo 2 responses404then200 1 1).2.2) :=
  C5_all_http_errors_retryable.1 2 responses404then200 0 0 404 "Not Found"
    rfl (by decide)

/-- C9: a target whose parsed URL lacks a scheme or lacks a non-empty host
is rejected with no GET attempt and no sleep; a target with both a scheme
and a host passes `is_valid_url`, and whenever the retry budget allows at
least one loop iteration, a network attempt is made. -/
theorem C9_url_validation :
    (∀ (cfg : Config) (u : URLParts) (rs : Nat → NetResult),
      u.scheme = "" ∨ u.netloc = "" →
      fetch_content cfg u rs = (none, 0, [])) ∧
    (∀ (cfg : Config) (u : URLParts) (rs : Nat → NetResult),
      u.scheme ≠ "" → u.netloc ≠ "" →
      is_valid_url u = true ∧
      (1 ≤ cfg.max_retries → 1 ≤ (fetch_content cfg u rs).2.1)) := by
  constructor
  · intro cfg u rs h
    have hv : is_valid_url u = false := by
      unfold is_valid_url
      rcases h with h | h <;> simp [h]
    unfold fetch_content
    rw [hv]
    rfl
  · intro cfg u rs h1 h2
    have hv : is_valid_url u = true := by
      simp [is_valid_url, h1, h2]
    refine ⟨hv, fun hm => ?_⟩
    unfold fetch_content
    rw [hv]
    exact fetchGo_attempts_pos _ _ _ _ hm

/-- C9, witness: the validation theorem applied to a scheme-less URL and
to a well-formed URL. -/
theorem C9_url_validation_witness :
    fetch_content ⟨3, 2⟩ ⟨"", "x.test"⟩ responses503then200 =
      (none, 0, []) ∧
    1 ≤ (fetch_content ⟨3, 2⟩ ⟨"https", "x.test"⟩ responses503then200).2.1 :=
  ⟨C9_url_validation.1 ⟨3, 2⟩ ⟨"", "x.test"⟩ responses503then200 (Or.inl rfl),
   (C9_url_validation.2 ⟨3, 2⟩ ⟨"https", "x.test"⟩ responses503then200
     (by decide) (by decide)).2 (by decide)⟩

/-- C2, counterexample: the claim predicts that when no selector matches
anything, extraction returns exactly one record holding the document's
title (`Breaking News`).  Neither extractor has any fallback branch: both
return the empty list, never the title record. -/
theorem C2_counterexample :
    docTitleOnly.title = some "Breaking News" ∧
    parse_html_content ["h1", "h2", "h3", ".headline", ".title"]
      (some docTitleOnly) "https://x.test/news" = [] ∧
    extract_headlines "https://x.test/news" ["h1"] (some docTitleOnly) = [] :=
  ⟨rfl, rfl, rfl⟩

/-- C2, amended: when no selector matches any element the extraction
result is empty — there is no fall back to the document title; the result
is likewise empty when the only matches are filtered out by the length
floor. -/
theorem C2_no_title_fallback :
    (∀ (selectors : List String) (d : Doc) (src : String),
      (∀ sel ∈ selectors, d.select sel = []) →
      parse_html_content selectors (some d) src = []) ∧
    parse_html_content ["h2"] (some docHi) "https://x.test/news" = [] :=
  ⟨fun selectors d src h => parse_html_content_eq_nil selectors d src h, rfl⟩

/-- C2, witness for the amended theorem: a document with a title but no
selector matches yields the empty result, not the title. -/
theorem C2_no_title_fallback_witness :
    parse_html_content ["h1"] (some docTitleOnly) "https://x.test/news" = [] :=
  C2_no_title_fallback.1 ["h1"] docTitleOnly "https://x.test/news"
    (fun _ _ => rfl)

/-- C3, counterexample: the claim predicts `Market Update` and
`market update` collapse to one record.  `parse_html_content` performs no
deduplication at all, so both records appear even though their titles are
equal under the case-insensitive comparison. -/
theorem C3_counterexample :
    (parse_html_content ["s1", "s2"] (some docCase) "https://x.test/news").map
      Record.title = ["Market Update", "market update"] ∧
    pyLower "Market Update" = pyLower "market update" :=
  ⟨rfl, by decide⟩

/-- C3, amended: `parse_html_content` performs no deduplication (textual
duplicates, even identical ones, are all retained); `extract_headlines`
deduplicates only exact `(text, url)` pairs via its set — its result never
holds the same pair twice, identical pairs from two selectors collapse to
one, but the case variants stay distinct records. -/
theorem C3_dedup_is_exact :
    (∀ (target_url : String) (selectors : List String) (parsed : Option Doc),
      (extract_headlines target_url selectors parsed).Nodup) ∧
    (extract_headlines "https://x.test/news" ["s1", "s2"]
      (some docPairExact)).length = 1 ∧
    (extract_headlines "https://x.test/news" ["s1", "s2"]
      (some docPairCase)).length = 2 ∧
    (parse_html_content ["s1", "s2"] (some docDupExact)
      "https://x.test/news").map Record.title =
      ["Duplicate headline", "Duplicate headline"] := by
  refine ⟨?_, by decide, by decide, rfl⟩
  intro target_url selectors parsed
  cases parsed with
  | none => exact List.nodup_nil
  | some d => exact nodup_foldl_addPair _ _ List.nodup_nil

/-- C4, counterexample: with selector `s1` matching A, B and `s2` matching
B, C (B textually duplicate), the claim predicts the result `[A, B, C]`
with B once.  `parse_html_content` keeps duplicates, so B appears twice. -/
theorem C4_counterexample :
    (parse_html_content ["s1", "s2"] (some docOrder) "https://x.test/news").map
      Record.title =
      ["Alpha headline news", "Bravo headline news", "Bravo headline news",
        "Charlie headline news"] ∧
    (parse_html_content ["s1", "s2"] (some docOrder) "https://x.test/news").map
      Record.title ≠
      ["Alpha headline news", "Bravo headline news", "Charlie headline news"] :=
  ⟨rfl, by decide⟩

/-- C4, amended: `parse_html_content` is ordered by selector-list position
first and document order second, but performs no first-seen
deduplication: the records of a later selector block follow all records of
earlier selectors, and a textual duplicate appears once per match, so
`[s1, s2]` with s1 matching A,B and s2 matching B,C yields `[A, B, B, C]`
with both copies of B. -/
theorem C4_selector_order_with_duplicates :
    (∀ (ss ts : List String) (d : Doc) (src : String),
      parse_html_content (ss ++ ts) (some d) src =
        parse_html_content ss (some d) src ++
          parse_html_content ts (some d) src) ∧
    (parse_html_content ["s1", "s2"] (some docOrder) "https://x.test/news").map
      (fun r => (r.title, r.selector)) =
      [("Alpha headline news", some "s1"), ("Bravo headline news", some "s1"),
        ("Bravo headline news", some "s2"),
        ("Charlie headline news", some "s2")] := by
  constructor
  · intro ss ts d src
    simp only [parse_html_content]
    exact List.flatMap_append _ _ _
  · rfl

/-- C6: a record is emitted only when the stripped element text is
non-empty and its character count exceeds the length floor (10 in
`parse_html_content`, 5 in `extract_headlines`), the count being taken on
the stripped text before any deduplication; concretely, `Hi` (2 chars) is
excluded and `Markets rally today` (19 chars) is included. -/
theorem C6_length_floor :
    (∀ (selectors : List String) (parsed : Option Doc) (src : String)
      (r : Record), r ∈ parse_html_content selectors parsed src →
      r.title ≠ "" ∧ 10 < r.title.length) ∧
    (∀ (target_url : String) (selectors : List String) (parsed : Option Doc)
      (p : String × String),
      p ∈ extract_headlines target_url selectors parsed →
      p.1 ≠ "" ∧ 5 < p.1.length) ∧
    parse_html_content ["h2"] (some docHi) "https://x.test/news" = [] ∧
    (parse_html_content ["h2"] (some docMarkets) "https://x.test/news").map
      Record.title = ["Markets rally today"] := by
  refine ⟨?_, ?_, rfl, rfl⟩
  · intro selectors parsed src r h
    rcases parse_html_content_mem selectors parsed src r h with
      ⟨d, sel, e, _, _, _, hrec⟩
    rcases recordOf_eq_some src sel e r hrec with ⟨hr, hne, hlen⟩
    rw [hr]
    exact ⟨hne, hlen⟩
  · intro target_url selectors parsed p h
    rcases extract_headlines_mem target_url selectors parsed p h with
      ⟨d, sel, e, _, _, _, hp⟩
    rcases pairOf_eq_some target_url e p hp with ⟨h1, h2, h3⟩
    rw [h1]
    exact ⟨h2, h3⟩

/-- C6, witness: the floor theorem applied to the record extracted from
the `Markets rally today` document. -/
theorem C6_length_floor_witness :
    (mkHtmlRecord "Markets rally today" "" "https://x.test/news" "h2").title
      ≠ "" ∧
    10 < (mkHtmlRecord "Markets rally today" "" "https://x.test/news"
      "h2").title.length :=
  C6_length_floor.1 ["h2"] (some docMarkets) "https://x.test/news"
    (mkHtmlRecord "Markets rally today" "" "https://x.test/news" "h2")
    (by decide)

/-- C7: when the content cannot be parsed into a document tree (the parse
oracle yields `none`, modelling the parser raising), every extraction
entry point returns the empty result to its caller — not a partial result
and not a propagated exception. -/
theorem C7_parse_failure_empty :
    (∀ (selectors : List String) (src : String),
      parse_html_content selectors none src = []) ∧
    (∀ (target_url : String) (selectors : List String),
      extract_headlines target_url selectors none = []) ∧
    (∀ (src : String), parse_rss_feed none src = []) :=
  ⟨fun _ _ => rfl, fun _ _ => rfl, fun _ => rfl⟩

/-- C8: in `parse_html_content` (where links are optional), a matched
element whose anchor search yields nothing truthy — no anchor href found
(`link_raw = None`) or an empty one — still yields its record, stored with
the empty link field; link-resolution failure never discards a record. -/
theorem C8_optional_link :
    (∀ (src sel : String) (e : Element),
      linkRawOf e = none ∨ linkRawOf e = some "" →
      pyStrip e.text ≠ "" → 10 < (pyStrip e.text).length →
      recordOf src sel e =
        some (mkHtmlRecord (pyStrip e.text) "" src sel)) ∧
    (parse_html_content ["h2"] (some docMarkets) "https://x.test/news").map
      (fun r => (r.title, r.link)) = [("Markets rally today", "")] := by
  constructor
  · intro src sel e hl h1 h2
    have hlink : linkOf src e = "" := by
      rcases hl with hl | hl
      · simp [linkOf, hl]
      · simp [linkOf, hl]
    simp only [recordOf]
    rw [hlink, if_pos ⟨h1, h2⟩]
  · rfl

/-- C8, witness: an element with no anchor anywhere still produces its
record, with an empty link. -/
theorem C8_optional_link_witness :
    recordOf "https://x.test/news" "h2" (textElem "h2" "Markets rally today")
      = some (mkHtmlRecord (pyStrip "Markets rally today") ""
        "https://x.test/news" "h2") :=
  C8_optional_link.1 "https://x.test/news" "h2"
    (textElem "h2" "Markets rally today") (Or.inl (by decide)) (by decide)
    (by decide)

/-- C10: the choice between feed parsing and HTML parsing is decided
solely by whether the lowercased URL string contains `rss` or `xml` —
never by the fetched content: a non-feed-looking URL is parsed as HTML
whatever the content, a feed-looking URL as a feed; concretely, a feed
body served from `https://news.example.com/feed` goes down the HTML path
(yielding `[]`) even though its feed parse would yield a record. -/
theorem C10_url_substring_routing :
    (∀ (cfg : Config) (url : String) (up : URLParts) (rs : Nat → NetResult)
      (selectors : List String) (pXml : String → Option RssDoc)
      (pHtml : String → Option Doc) (content : String),
      (fetch_content cfg up rs).1 = some content → content ≠ "" →
      isFeedUrl url = false →
      scrape_url cfg url up rs selectors pXml pHtml =
        parse_html_content selectors (pHtml content) url) ∧
    (∀ (cfg : Config) (url : String) (up : URLParts) (rs : Nat → NetResult)
      (selectors : List String) (pXml : String → Option RssDoc)
      (pHtml : String → Option Doc) (content : String),
      (fetch_content cfg up rs).1 = some content → content ≠ "" →
      isFeedUrl url = true →
      scrape_url cfg url up rs selectors pXml pHtml =
        parse_rss_feed (pXml content) url) ∧
    isFeedUrl "https://news.example.com/feed" = false ∧
    isFeedUrl "https://x.test/RSS" = true ∧
    isFeedUrl "https://x.test/sitemap.XML" = true ∧
    scrape_url ⟨3, 2⟩ "https://news.example.com/feed"
      ⟨"https", "news.example.com"⟩ responsesFeedBody ["h2"] feedOracleXml
      feedOracleHtml = [] ∧
    parse_rss_feed (feedOracleXml "feedbody") "https://news.example.com/feed"
      = [mkRssRecord "Feed Item" "" "" ""
        "https://news.example.com/feed"] := by
  refine ⟨?_, ?_, by decide, by decide, by decide, by decide, by decide⟩
  · intro cfg url up rs selectors pXml pHtml content hc hne hf
    simp only [scrape_url, hc]
    rw [if_neg hne]
    simp only [hf, Bool.false_eq_true, if_false]
  · intro cfg url up rs selectors pXml pHtml content hc hne hf
    simp only [scrape_url, hc]
    rw [if_neg hne]
    simp only [hf, if_true]

/-- C10, witness: the routing theorem applied to the feed body served at
the non-feed-looking URL. -/
theorem C10_url_substring_routing_witness :
    scrape_url ⟨3, 2⟩ "https://news.example.com/feed"
      ⟨"https", "news.example.com"⟩ responsesFeedBody ["h2"] feedOracleXml
      feedOracleHtml =
      parse_html_content ["h2"] (feedOracleHtml "feedbody")
        "https://news.example.com/feed" :=
  C10_url_substring_routing.1 ⟨3, 2⟩ "https://news.example.com/feed"
    ⟨"https", "news.example.com"⟩ responsesFeedBody ["h2"] feedOracleXml
    feedOracleHtml "feedbody" (by decide) (by decide) (by decide)
